import Mathlib

/-!
Verification of the TrustAI trust-scoring and adaptive-authorization engine
against its specification.  Scores are modelled as rationals (the JavaScript
and Python sources use IEEE doubles only to carry exact decimal values in the
ranges involved), timestamps as naturals.
-/

namespace TrustAI

/-! ## Dashboard band mappings (from frontend UserDashboard component) -/

/-- Colour tokens returned by the dashboard's chip-colour helper. -/
inductive ChipColor where
  | success
  | warning
  | error
deriving DecidableEq

/-- Embeds getTrustScoreColor from the UserDashboard component:
returns success for score >= 70, warning for score >= 40, error otherwise. -/
def getTrustScoreColor (score : ℚ) : ChipColor :=
  if 70 ≤ score then .success
  else if 40 ≤ score then .warning
  else .error

/-- Embeds getTrustScoreColorHex from the UserDashboard component:
returns the hex colour for the same three bands. -/
def getTrustScoreColorHex (score : ℚ) : String :=
  if 70 ≤ score then "#4caf50"
  else if 40 ≤ score then "#ff9800"
  else "#f44336"

/-- Embeds the trust-level Chip label ternary from the UserDashboard
component: Trusted User for score >= 70, Moderate Risk for score >= 40,
High Risk otherwise. -/
def trustLevelChipLabel (score : ℚ) : String :=
  if 70 ≤ score then "Trusted User"
  else if 40 ≤ score then "Moderate Risk"
  else "High Risk"

/-! ## Decision policy -/

/-- Authorization decision emitted by the Decision Policy. -/
inductive Decision where
  | allow
  | verify
  | block
deriving DecidableEq

/-- Modelled from the spec: configurable threshold below which the decision
is Block (default 40); the Flask backend implementing it is not part of the
checked sources. -/
def HIGH_RISK_THRESHOLD : ℚ := 40

/-- Modelled from the spec: configurable threshold at or above which the
decision is Allow (default 70); the Flask backend implementing it is not
part of the checked sources. -/
def MEDIUM_RISK_THRESHOLD : ℚ := 70

/-- Modelled from the spec: the Decision Policy, a pure mapping from the
trust score to Allow / Verify / Block with thresholds inclusive at the lower
end of their own band; the Flask backend implementing it is not part of the
checked sources. -/
def decide (score : ℚ) : Decision :=
  if MEDIUM_RISK_THRESHOLD ≤ score then .allow
  else if HIGH_RISK_THRESHOLD ≤ score then .verify
  else .block

/-- C1: on the whole range [0,100] the decision classification partitions the
scores into exactly three bands, thresholds inclusive at the lower end of
their own band; the boundary scores 70 and 40 fall into Allow and Verify
respectively. -/
theorem decision_bands (s : ℚ) (h0 : 0 ≤ s) (h100 : s ≤ 100) :
    (decide s = .allow ↔ 70 ≤ s) ∧
    (decide s = .verify ↔ 40 ≤ s ∧ s < 70) ∧
    (decide s = .block ↔ s < 40) ∧
    decide 70 = .allow ∧ decide 40 = .verify := by
  have hb1 : decide 70 = Decision.allow := by
    unfold decide MEDIUM_RISK_THRESHOLD HIGH_RISK_THRESHOLD; norm_num
  have hb2 : decide 40 = Decision.verify := by
    unfold decide MEDIUM_RISK_THRESHOLD HIGH_RISK_THRESHOLD; norm_num
  refine ⟨?_, ?_, ?_, hb1, hb2⟩ <;>
  · unfold decide MEDIUM_RISK_THRESHOLD HIGH_RISK_THRESHOLD
    split_ifs with h1 h2 <;> simp_all <;> linarith

/-- Witness for C1 at the concrete score 55. -/
theorem decision_bands_witness :
    (0:ℚ) ≤ 55 ∧ (55:ℚ) ≤ 100 ∧
      (decide 55 = .verify ↔ 40 ≤ (55:ℚ) ∧ (55:ℚ) < 70) :=
  ⟨by norm_num, by norm_num, (decision_bands 55 (by norm_num) (by norm_num)).2.1⟩

/-- C10: the dashboard's independent band mappings agree for every score:
colour success, hex #4caf50 and label Trusted User coincide exactly on
scores >= 70; warning, #ff9800 and Moderate Risk exactly on 40 <= score < 70;
error, #f44336 and High Risk exactly on score < 40. -/
theorem dashboard_band_mappings_agree (s : ℚ) :
    ((getTrustScoreColor s = .success ∧ getTrustScoreColorHex s = "#4caf50") ↔
      (trustLevelChipLabel s = "Trusted User" ∧ 70 ≤ s)) ∧
    ((getTrustScoreColor s = .warning ∧ getTrustScoreColorHex s = "#ff9800") ↔
      (trustLevelChipLabel s = "Moderate Risk" ∧ 40 ≤ s ∧ s < 70)) ∧
    ((getTrustScoreColor s = .error ∧ getTrustScoreColorHex s = "#f44336") ↔
      (trustLevelChipLabel s = "High Risk" ∧ s < 40)) := by
  unfold getTrustScoreColor getTrustScoreColorHex trustLevelChipLabel
  split_ifs with h1 h2 <;>
    refine ⟨?_, ?_, ?_⟩ <;> simp_all

/-! ## Trust Aggregator -/

/-- The six named sub-scores produced by the risk-factor extractors. -/
structure SubScores where
  device : ℚ
  velocity : ℚ
  geolocation : ℚ
  behavior : ℚ
  accountHistory : ℚ
  timeOfDay : ℚ

/-- Modelled from the spec: fixed aggregation weight of the Device factor. -/
def W_DEVICE : ℚ := 20 / 100

/-- Modelled from the spec: fixed aggregation weight of the Velocity factor. -/
def W_VELOCITY : ℚ := 25 / 100

/-- Modelled from the spec: fixed aggregation weight of the Geolocation factor. -/
def W_GEO : ℚ := 15 / 100

/-- Modelled from the spec: fixed aggregation weight of the Behavior factor. -/
def W_BEHAVIOR : ℚ := 20 / 100

/-- Modelled from the spec: fixed aggregation weight of the Account History factor. -/
def W_ACCOUNT : ℚ := 15 / 100

/-- Modelled from the spec: fixed aggregation weight of the Time factor. -/
def W_TIME : ℚ := 5 / 100

/-- Clamp a raw value into the score range [0,100]. -/
def clampScore (x : ℚ) : ℚ := min 100 (max 0 x)

/-- Round a rational to one decimal place (nearest tenth). -/
def roundTenth (x : ℚ) : ℚ := ((round (10 * x) : ℤ) : ℚ) / 10

/-- Modelled from the spec: the Trust Aggregator combines the six sub-scores
by the fixed weighted sum, clamps to [0,100] and rounds to one decimal; the
Flask backend implementing it is not part of the checked sources. -/
def aggregate (s : SubScores) : ℚ :=
  roundTenth (clampScore
    (W_DEVICE * s.device + W_VELOCITY * s.velocity + W_GEO * s.geolocation +
     W_BEHAVIOR * s.behavior + W_ACCOUNT * s.accountHistory + W_TIME * s.timeOfDay))

theorem clampScore_nonneg (x : ℚ) : 0 ≤ clampScore x :=
  le_min (by norm_num) (le_max_left 0 x)

theorem clampScore_le_100 (x : ℚ) : clampScore x ≤ 100 :=
  min_le_left 100 (max 0 x)

theorem roundTenth_nonneg (x : ℚ) (h : 0 ≤ x) : 0 ≤ roundTenth x := by
  unfold roundTenth
  have hl : (0 : ℤ) ≤ round (10 * x) := by
    rw [round_eq]
    exact Int.le_floor.mpr (by push_cast; linarith)
  have : (0 : ℚ) ≤ ((round (10 * x) : ℤ) : ℚ) := by exact_mod_cast hl
  linarith

theorem roundTenth_le_100 (x : ℚ) (h : x ≤ 100) : roundTenth x ≤ 100 := by
  unfold roundTenth
  have hu : round (10 * x) ≤ 1000 := by
    rw [round_eq]
    have hlt : (10 : ℚ) * x + 1 / 2 < ((1001 : ℤ) : ℚ) := by push_cast; linarith
    have := Int.floor_lt.mpr hlt
    omega
  have : ((round (10 * x) : ℤ) : ℚ) ≤ 1000 := by exact_mod_cast hu
  linarith

/-- C2: for sub-scores each in [0,100], the aggregate equals the fixed
weighted sum clamped to [0,100] and rounded to one decimal, the six weights
sum to 1, and the aggregate always lies in [0,100]. -/
theorem aggregate_weighted_in_range (s : SubScores)
    (hd0 : 0 ≤ s.device) (hd1 : s.device ≤ 100)
    (hv0 : 0 ≤ s.velocity) (hv1 : s.velocity ≤ 100)
    (hg0 : 0 ≤ s.geolocation) (hg1 : s.geolocation ≤ 100)
    (hb0 : 0 ≤ s.behavior) (hb1 : s.behavior ≤ 100)
    (ha0 : 0 ≤ s.accountHistory) (ha1 : s.accountHistory ≤ 100)
    (ht0 : 0 ≤ s.timeOfDay) (ht1 : s.timeOfDay ≤ 100) :
    W_DEVICE + W_VELOCITY + W_GEO + W_BEHAVIOR + W_ACCOUNT + W_TIME = 1 ∧
    aggregate s = roundTenth (clampScore
      (W_DEVICE * s.device + W_VELOCITY * s.velocity + W_GEO * s.geolocation +
       W_BEHAVIOR * s.behavior + W_ACCOUNT * s.accountHistory +
       W_TIME * s.timeOfDay)) ∧
    0 ≤ aggregate s ∧ aggregate s ≤ 100 := by
  refine ⟨by norm_num [W_DEVICE, W_VELOCITY, W_GEO, W_BEHAVIOR, W_ACCOUNT, W_TIME],
    rfl, ?_, ?_⟩
  · exact roundTenth_nonneg _ (clampScore_nonneg _)
  · exact roundTenth_le_100 _ (clampScore_le_100 _)

/-- Witness for C2 at the concrete sub-score vector (80, 90, 70, 60, 50, 40). -/
theorem aggregate_weighted_in_range_witness :
    0 ≤ aggregate ⟨80, 90, 70, 60, 50, 40⟩ ∧
      aggregate ⟨80, 90, 70, 60, 50, 40⟩ ≤ 100 :=
  (aggregate_weighted_in_range ⟨80, 90, 70, 60, 50, 40⟩
    (by norm_num) (by norm_num) (by norm_num) (by norm_num) (by norm_num)
    (by norm_num) (by norm_num) (by norm_num) (by norm_num) (by norm_num)
    (by norm_num) (by norm_num)).2.2

/-! ## Risk-factor extractors and scoreAction -/

/-- Per-user device history read from the Signal Store. -/
structure DeviceHistory where
  recurrenceCount : ℕ
  ageDays : ℕ

/-- Velocity-window summary read by the Velocity extractor. -/
structure VelocityInfo where
  count : ℕ
  totalAmount : ℚ

/-- Geolocation evidence for the current action. -/
structure GeoInfo where
  knownCountry : Bool
  implausibleJump : Bool

/-- Behavioral evidence: magnitude of deviation of the current action from
the user's historical distribution. -/
structure BehaviorInfo where
  deviation : ℚ

/-- Account metadata read from the Signal Store. -/
structure AccountInfo where
  ageDays : ℕ
  emailVerified : Bool
  phoneVerified : Bool

/-- Time-of-day evidence for the current action. -/
structure TimeInfo where
  hourOfDay : ℕ

/-- Per-user historical state available to the extractors; a missing field
means no historical data exists for that factor. -/
structure SignalStore where
  device : Option DeviceHistory
  velocity : Option VelocityInfo
  geo : Option GeoInfo
  behavior : Option BehaviorInfo
  account : Option AccountInfo
  timeInfo : Option TimeInfo

/-- Modelled from the spec: configurable per-transaction amount cap used by
the Velocity extractor; the Flask backend holding the documented default is
not part of the checked sources. -/
def MAX_TRANSACTION_AMOUNT : ℚ := 50000

/-- Modelled from the spec: configurable daily transaction-count cap used by
the Velocity extractor; the Flask backend holding the documented default is
not part of the checked sources. -/
def MAX_DAILY_TRANSACTIONS : ℚ := 10

/-- Modelled from the spec: Device Consistency extractor — an unseen
fingerprint scores the low baseline 30, and the sub-score rises with
recurrence count and age; total, missing data degrades to the baseline. -/
def deviceScore : Option DeviceHistory → ℚ
  | none => 30
  | some d => min 100 (30 + 2 * (d.recurrenceCount : ℚ) + (d.ageDays : ℚ) / 30)

/-- Modelled from the spec: Transaction Velocity extractor — the sub-score
decays as count and summed amount exceed the configured caps; total, missing
data degrades to a conservative default. -/
def velocityScore : Option VelocityInfo → ℚ
  | none => 50
  | some v => clampScore
      (100 - 20 * max 0 ((v.count : ℚ) - MAX_DAILY_TRANSACTIONS)
           - 20 * max 0 (v.totalAmount / MAX_TRANSACTION_AMOUNT - 1))

/-- Modelled from the spec: Geolocation Risk extractor — a first-time
country lowers the sub-score and an implausible jump lowers it further;
total, missing data degrades to a conservative default. -/
def geoScore : Option GeoInfo → ℚ
  | none => 40
  | some g => clampScore
      ((if g.knownCountry then 90 else 35) - (if g.implausibleJump then 25 else 0))

/-- Modelled from the spec: Behavioral Patterns extractor — larger deviation
from the historical distribution lowers the sub-score; total, missing data
degrades to a conservative default. -/
def behaviorScore : Option BehaviorInfo → ℚ
  | none => 50
  | some b => clampScore (95 - b.deviation)

/-- Modelled from the spec: Account History extractor — a function of
account age (saturating after a configured age) and verification flags;
total, missing data degrades to a conservative default. -/
def accountScore : Option AccountInfo → ℚ
  | none => 20
  | some a => min 100
      (min (a.ageDays : ℚ) 365 / 365 * 70 +
        (if a.emailVerified then 15 else 0) + (if a.phoneVerified then 15 else 0))

/-- Modelled from the spec: Time Patterns extractor — off-hours activity
takes a modest penalty; total, missing data degrades to a conservative
default. -/
def timeScore : Option TimeInfo → ℚ
  | none => 50
  | some t => if t.hourOfDay < 6 ∨ 23 ≤ t.hourOfDay then 60 else 90

/-- The unit under evaluation. -/
structure ActionEvent where
  kind : String
  amount : Option ℚ
  merchant : String
  timestamp : ℕ

/-- Aggregate score, decision and explanation produced for one action. -/
structure TrustScoreRecord where
  score : ℚ
  decision : Decision
  explanation : String
  timestamp : ℕ

/-- Runs the six extractors against the Signal Store. -/
def extractAll (st : SignalStore) : SubScores :=
  { device := deviceScore st.device
    velocity := velocityScore st.velocity
    geolocation := geoScore st.geo
    behavior := behaviorScore st.behavior
    accountHistory := accountScore st.account
    timeOfDay := timeScore st.timeInfo }

/-- Modelled from the spec: scoreAction runs extraction, aggregation and the
decision policy and always returns a TrustScoreRecord (a plain function, so
it cannot throw); the Flask backend implementing it is not part of the
checked sources. -/
def scoreAction (uid : ℕ) (a : ActionEvent) (st : SignalStore) : TrustScoreRecord :=
  let sc := aggregate (extractAll st)
  { score := sc
    decision := decide sc
    explanation := toString uid ++ " " ++ a.kind
    timestamp := a.timestamp }

theorem deviceScore_mem (d : Option DeviceHistory) :
    0 ≤ deviceScore d ∧ deviceScore d ≤ 100 := by
  cases d with
  | none => exact ⟨by norm_num [deviceScore], by norm_num [deviceScore]⟩
  | some d =>
      unfold deviceScore
      have h1 : (0 : ℚ) ≤ 2 * (d.recurrenceCount : ℚ) := by positivity
      have h2 : (0 : ℚ) ≤ (d.ageDays : ℚ) / 30 := by positivity
      exact ⟨le_min (by norm_num) (by linarith), min_le_left _ _⟩

theorem velocityScore_mem (v : Option VelocityInfo) :
    0 ≤ velocityScore v ∧ velocityScore v ≤ 100 := by
  cases v with
  | none => exact ⟨by norm_num [velocityScore], by norm_num [velocityScore]⟩
  | some v => exact ⟨clampScore_nonneg _, clampScore_le_100 _⟩

theorem geoScore_mem (g : Option GeoInfo) :
    0 ≤ geoScore g ∧ geoScore g ≤ 100 := by
  cases g with
  | none => exact ⟨by norm_num [geoScore], by norm_num [geoScore]⟩
  | some g => exact ⟨clampScore_nonneg _, clampScore_le_100 _⟩

theorem behaviorScore_mem (b : Option BehaviorInfo) :
    0 ≤ behaviorScore b ∧ behaviorScore b ≤ 100 := by
  cases b with
  | none => exact ⟨by norm_num [behaviorScore], by norm_num [behaviorScore]⟩
  | some b => exact ⟨clampScore_nonneg _, clampScore_le_100 _⟩

theorem accountScore_mem (a : Option AccountInfo) :
    0 ≤ accountScore a ∧ accountScore a ≤ 100 := by
  cases a with
  | none => exact ⟨by norm_num [accountScore], by norm_num [accountScore]⟩
  | some a =>
      unfold accountScore
      have h1 : (0 : ℚ) ≤ min (a.ageDays : ℚ) 365 / 365 * 70 := by
        have : (0 : ℚ) ≤ min (a.ageDays : ℚ) 365 := le_min (by positivity) (by norm_num)
        positivity
      have h2 : (0 : ℚ) ≤ (if a.emailVerified then (15 : ℚ) else 0) := by
        split <;> norm_num
      have h3 : (0 : ℚ) ≤ (if a.phoneVerified then (15 : ℚ) else 0) := by
        split <;> norm_num
      exact ⟨le_min (by norm_num) (by linarith), min_le_left _ _⟩

theorem timeScore_mem (t : Option TimeInfo) :
    0 ≤ timeScore t ∧ timeScore t ≤ 100 := by
  cases t with
  | none => exact ⟨by norm_num [timeScore], by norm_num [timeScore]⟩
  | some t =>
      simp only [timeScore]
      split_ifs <;> norm_num

/-- C3: scoreAction is total — for every user, action and Signal Store it
returns a TrustScoreRecord whose score lies in [0,100] and whose decision is
the pure decision of the score; each extractor is total with sub-score in
[0,100], and a factor with no historical data takes its fixed conservative
default, each of which lies at or below 50 and hence strictly below the
trusted band threshold. -/
theorem scoreAction_total_conservative (uid : ℕ) (a : ActionEvent) (st : SignalStore) :
    (0 ≤ (scoreAction uid a st).score ∧ (scoreAction uid a st).score ≤ 100) ∧
    (scoreAction uid a st).decision = decide ((scoreAction uid a st).score) ∧
    (0 ≤ deviceScore st.device ∧ deviceScore st.device ≤ 100) ∧
    (0 ≤ velocityScore st.velocity ∧ velocityScore st.velocity ≤ 100) ∧
    (0 ≤ geoScore st.geo ∧ geoScore st.geo ≤ 100) ∧
    (0 ≤ behaviorScore st.behavior ∧ behaviorScore st.behavior ≤ 100) ∧
    (0 ≤ accountScore st.account ∧ accountScore st.account ≤ 100) ∧
    (0 ≤ timeScore st.timeInfo ∧ timeScore st.timeInfo ≤ 100) ∧
    (deviceScore none = 30 ∧ velocityScore none = 50 ∧ geoScore none = 40 ∧
     behaviorScore none = 50 ∧ accountScore none = 20 ∧ timeScore none = 50) ∧
    (deviceScore none ≤ 50 ∧ velocityScore none ≤ 50 ∧ geoScore none ≤ 50 ∧
     behaviorScore none ≤ 50 ∧ accountScore none ≤ 50 ∧ timeScore none ≤ 50 ∧
     (50 : ℚ) < MEDIUM_RISK_THRESHOLD) := by
  refine ⟨⟨?_, ?_⟩, rfl, deviceScore_mem _, velocityScore_mem _, geoScore_mem _,
    behaviorScore_mem _, accountScore_mem _, timeScore_mem _,
    ⟨rfl, rfl, rfl, rfl, rfl, rfl⟩, ?_⟩
  · exact roundTenth_nonneg _ (clampScore_nonneg _)
  · exact roundTenth_le_100 _ (clampScore_le_100 _)
  · refine ⟨?_, ?_, ?_, ?_, ?_, ?_, ?_⟩ <;>
      norm_num [deviceScore, velocityScore, geoScore, behaviorScore,
        accountScore, timeScore, MEDIUM_RISK_THRESHOLD]

/-! ## MFA Challenge Manager -/

/-- State of an MFA challenge. -/
inductive ChallengeState where
  | pending
  | verified
  | expired
  | failed
deriving DecidableEq

/-- A step-up verification challenge tied to one user and one code. -/
structure MFAChallenge where
  challengeId : ℕ
  userId : ℕ
  code : String
  issuedAt : ℕ
  expiresAt : ℕ
  state : ChallengeState
  attempts : ℕ
deriving DecidableEq

/-- Outcome returned to the caller by a verification attempt. -/
inductive VerifyOutcome where
  | verifiedOutcome
  | incorrectCode
  | expiredOutcome
  | failedOutcome
deriving DecidableEq

/-- Modelled from the spec: challenge time-to-live in seconds (fixed TTL,
e.g. 5 minutes); the Flask backend holding the default is not part of the
checked sources. -/
def MFA_TTL : ℕ := 300

/-- Modelled from the spec: configurable number of incorrect code
submissions tolerated against one Pending challenge; the Flask backend
holding the default is not part of the checked sources. -/
def MFA_MAX_ATTEMPTS : ℕ := 3

/-- Modelled from the spec: verification of a submitted code against a
challenge — terminal states are frozen, expiry is checked lazily before the
code, exceeded attempts move the challenge to Failed, a matching code before
expiry verifies it, and a wrong code increments the attempt counter; the
Flask backend implementing it is not part of the checked sources. -/
def verifyChallenge (c : MFAChallenge) (code : String) (now : ℕ) :
    VerifyOutcome × MFAChallenge :=
  match c.state with
  | .verified => (.verifiedOutcome, c)
  | .expired => (.expiredOutcome, c)
  | .failed => (.failedOutcome, c)
  | .pending =>
      if c.expiresAt ≤ now then (.expiredOutcome, { c with state := .expired })
      else if MFA_MAX_ATTEMPTS ≤ c.attempts then (.failedOutcome, { c with state := .failed })
      else if code = c.code then (.verifiedOutcome, { c with state := .verified })
      else (.incorrectCode, { c with attempts := c.attempts + 1 })

/-- Modelled from the spec: lazy expiry check applied when a challenge is
touched — a Pending challenge whose TTL elapsed becomes Expired, all other
states are untouched. -/
def checkExpiry (c : MFAChallenge) (now : ℕ) : MFAChallenge :=
  if c.state = .pending ∧ c.expiresAt ≤ now then { c with state := .expired } else c

/-- An operation applied to one existing challenge: a verification attempt
or a lazy expiry touch (issuance never mutates an existing challenge: it
either returns it unchanged or creates a fresh one, see issueChallenge). -/
inductive ChallengeOp where
  | verifyAttempt (code : String) (now : ℕ)
  | expiryTouch (now : ℕ)

/-- Applies one operation to the challenge. -/
def applyOp (c : MFAChallenge) : ChallengeOp → MFAChallenge
  | .verifyAttempt code now => (verifyChallenge c code now).2
  | .expiryTouch now => checkExpiry c now

/-- Applies a sequence of operations left to right. -/
def runOps (c : MFAChallenge) : List ChallengeOp → MFAChallenge
  | [] => c
  | op :: ops => runOps (applyOp c op) ops

theorem applyOp_of_terminal (c : MFAChallenge) (op : ChallengeOp)
    (h : c.state ≠ .pending) : applyOp c op = c := by
  cases op with
  | verifyAttempt code now =>
      cases hs : c.state with
      | pending => exact absurd hs h
      | verified => simp [applyOp, verifyChallenge, hs]
      | expired => simp [applyOp, verifyChallenge, hs]
      | failed => simp [applyOp, verifyChallenge, hs]
  | expiryTouch now => simp [applyOp, checkExpiry, h]

theorem runOps_of_terminal (c : MFAChallenge) (ops : List ChallengeOp)
    (h : c.state ≠ .pending) : runOps c ops = c := by
  induction ops with
  | nil => rfl
  | cons op ops ih =>
      rw [runOps, applyOp_of_terminal c op h]
      exact ih

theorem runOps_pending_of_pending (c : MFAChallenge) (ops : List ChallengeOp)
    (h : (runOps c ops).state = .pending) : c.state = .pending := by
  by_contra hc
  rw [runOps_of_terminal c ops hc] at h
  exact hc h

/-- C4: across every sequence of verification attempts and expiry checks a
challenge's state never returns to Pending from a non-Pending state (the
three terminal states are frozen entirely), and verifying a Pending
challenge with its correct code after its expires-at has passed yields the
Expired outcome and the Expired state, not Verified. -/
theorem mfa_no_backward_transition (c : MFAChallenge) (ops : List ChallengeOp) (now : ℕ) :
    ((runOps c ops).state = .pending → c.state = .pending) ∧
    (c.state ≠ .pending → runOps c ops = c) ∧
    (c.state = .pending → c.expiresAt ≤ now →
      (verifyChallenge c c.code now).1 = .expiredOutcome ∧
      (verifyChallenge c c.code now).2.state = .expired ∧
      (verifyChallenge c c.code now).1 ≠ .verifiedOutcome) := by
  refine ⟨runOps_pending_of_pending c ops, runOps_of_terminal c ops, ?_⟩
  intro hp he
  simp [verifyChallenge, hp, he]

/-- Witness for C4: a Pending challenge expiring at 300, touched by one
failed attempt, then verified with the correct code at time 400. -/
theorem mfa_no_backward_transition_witness :
    ((runOps ⟨1, 7, "123456", 0, 300, .pending, 0⟩
        [.verifyAttempt "000000" 50]).state = .pending →
      (⟨1, 7, "123456", 0, 300, .pending, 0⟩ : MFAChallenge).state = .pending) ∧
    ((verifyChallenge ⟨1, 7, "123456", 0, 300, .pending, 0⟩ "123456" 400).1 =
      .expiredOutcome ∧
     (verifyChallenge ⟨1, 7, "123456", 0, 300, .pending, 0⟩ "123456" 400).2.state =
      .expired ∧
     (verifyChallenge ⟨1, 7, "123456", 0, 300, .pending, 0⟩ "123456" 400).1 ≠
      .verifiedOutcome) :=
  ⟨(mfa_no_backward_transition ⟨1, 7, "123456", 0, 300, .pending, 0⟩
      [.verifyAttempt "000000" 50] 400).1,
   (mfa_no_backward_transition ⟨1, 7, "123456", 0, 300, .pending, 0⟩
      [.verifyAttempt "000000" 50] 400).2.2 rfl (by norm_num)⟩

/-- Modelled from the spec: the fresh challenge created at issuance — a new
id and server-generated code, Pending, expiring one TTL after issuance. -/
def freshChallenge (uid fresh : ℕ) (code : String) (now : ℕ) : MFAChallenge :=
  { challengeId := fresh
    userId := uid
    code := code
    issuedAt := now
    expiresAt := now + MFA_TTL
    state := .pending
    attempts := 0 }

/-- Modelled from the spec: issueChallenge for one user — while a Pending
and unexpired challenge exists it is returned unchanged (idempotent
issuance); otherwise a fresh challenge is created; the Flask backend
implementing it is not part of the checked sources. -/
def issueChallenge (prev : Option MFAChallenge) (uid fresh : ℕ)
    (code : String) (now : ℕ) : MFAChallenge :=
  match prev with
  | some c => if c.state = .pending ∧ now < c.expiresAt then c
              else freshChallenge uid fresh code now
  | none => freshChallenge uid fresh code now

/-- Modelled from the spec: the Challenge Manager keeps at most one
challenge per user (one slot per user id); issuance reads the user's slot
and writes the issued challenge back to it. -/
def managerIssue (store : ℕ → Option MFAChallenge) (uid fresh : ℕ)
    (code : String) (now : ℕ) : MFAChallenge × (ℕ → Option MFAChallenge) :=
  let c := issueChallenge (store uid) uid fresh code now
  (c, fun u => if u = uid then some c else store u)

/-- C5: while a user holds a Pending and unexpired challenge, issuing again
returns exactly that challenge — same challenge id and same code — and
leaves the manager's store unchanged, so no new challenge is minted; the
store keeps at most one challenge per user by construction. -/
theorem issueChallenge_idempotent (store : ℕ → Option MFAChallenge)
    (c : MFAChallenge) (uid fresh : ℕ) (code : String) (now : ℕ)
    (hc : store uid = some c) (hp : c.state = .pending) (he : now < c.expiresAt) :
    (managerIssue store uid fresh code now).1 = c ∧
    (managerIssue store uid fresh code now).1.challengeId = c.challengeId ∧
    (managerIssue store uid fresh code now).1.code = c.code ∧
    (managerIssue store uid fresh code now).2 = store := by
  have h1 : (managerIssue store uid fresh code now).1 = c := by
    simp [managerIssue, issueChallenge, hc, hp, he]
  refine ⟨h1, by rw [h1], by rw [h1], ?_⟩
  funext u
  by_cases hu : u = uid
  · subst hu
    simp [managerIssue, issueChallenge, hc, hp, he]
  · simp [managerIssue, hu]

/-- Witness for C5: a store holding one Pending challenge for user 7,
re-issued at time 100 before its expiry at 300. -/
theorem issueChallenge_idempotent_witness :
    (managerIssue (fun u => if u = 7 then some ⟨1, 7, "123456", 0, 300, .pending, 0⟩ else none)
        7 99 "654321" 100).1 = ⟨1, 7, "123456", 0, 300, .pending, 0⟩ ∧
    (managerIssue (fun u => if u = 7 then some ⟨1, 7, "123456", 0, 300, .pending, 0⟩ else none)
        7 99 "654321" 100).1.challengeId = (1 : ℕ) ∧
    (managerIssue (fun u => if u = 7 then some ⟨1, 7, "123456", 0, 300, .pending, 0⟩ else none)
        7 99 "654321" 100).1.code = "123456" ∧
    (managerIssue (fun u => if u = 7 then some ⟨1, 7, "123456", 0, 300, .pending, 0⟩ else none)
        7 99 "654321" 100).2 =
      (fun u => if u = 7 then some ⟨1, 7, "123456", 0, 300, .pending, 0⟩ else none) :=
  issueChallenge_idempotent
    (fun u => if u = 7 then some ⟨1, 7, "123456", 0, 300, .pending, 0⟩ else none)
    ⟨1, 7, "123456", 0, 300, .pending, 0⟩ 7 99 "654321" 100
    (by norm_num) rfl (by norm_num)

/-- C6: with max attempts 3, four wrong submissions against a Pending
unexpired challenge yield the incorrect-code outcome on the first three, the
distinct Failed outcome on the fourth, a Failed state thereafter, and the
Failed outcome again on every subsequent attempt with any code at any time. -/
theorem mfa_attempts_exceeded (c : MFAChallenge) (w1 w2 w3 w4 : String)
    (t1 t2 t3 t4 : ℕ)
    (hp : c.state = .pending) (ha : c.attempts = 0)
    (hw1 : w1 ≠ c.code) (hw2 : w2 ≠ c.code) (hw3 : w3 ≠ c.code)
    (ht1 : t1 < c.expiresAt) (ht2 : t2 < c.expiresAt)
    (ht3 : t3 < c.expiresAt) (ht4 : t4 < c.expiresAt) :
    (verifyChallenge c w1 t1).1 = .incorrectCode ∧
    (verifyChallenge (verifyChallenge c w1 t1).2 w2 t2).1 = .incorrectCode ∧
    (verifyChallenge (verifyChallenge (verifyChallenge c w1 t1).2 w2 t2).2
        w3 t3).1 = .incorrectCode ∧
    (verifyChallenge (verifyChallenge (verifyChallenge
        (verifyChallenge c w1 t1).2 w2 t2).2 w3 t3).2 w4 t4).1 = .failedOutcome ∧
    (verifyChallenge (verifyChallenge (verifyChallenge
        (verifyChallenge c w1 t1).2 w2 t2).2 w3 t3).2 w4 t4).2.state = .failed ∧
    (∀ (code : String) (t : ℕ),
      (verifyChallenge (verifyChallenge (verifyChallenge (verifyChallenge
          (verifyChallenge c w1 t1).2 w2 t2).2 w3 t3).2 w4 t4).2 code t).1 =
        .failedOutcome ∧
      (verifyChallenge (verifyChallenge (verifyChallenge (verifyChallenge
          (verifyChallenge c w1 t1).2 w2 t2).2 w3 t3).2 w4 t4).2 code t).2.state =
        .failed) := by
  obtain ⟨cid, uid, cd, iss, exp, st, att⟩ := c
  simp only at hp ha hw1 hw2 hw3 ht1 ht2 ht3 ht4
  subst hp ha
  have h1 : verifyChallenge ⟨cid, uid, cd, iss, exp, .pending, 0⟩ w1 t1 =
      (.incorrectCode, ⟨cid, uid, cd, iss, exp, .pending, 1⟩) := by
    simp [verifyChallenge, Nat.not_le.mpr ht1, hw1, MFA_MAX_ATTEMPTS]
  have h2 : verifyChallenge ⟨cid, uid, cd, iss, exp, .pending, 1⟩ w2 t2 =
      (.incorrectCode, ⟨cid, uid, cd, iss, exp, .pending, 2⟩) := by
    simp [verifyChallenge, Nat.not_le.mpr ht2, hw2, MFA_MAX_ATTEMPTS]
  have h3 : verifyChallenge ⟨cid, uid, cd, iss, exp, .pending, 2⟩ w3 t3 =
      (.incorrectCode, ⟨cid, uid, cd, iss, exp, .pending, 3⟩) := by
    simp [verifyChallenge, Nat.not_le.mpr ht3, hw3, MFA_MAX_ATTEMPTS]
  have h4 : verifyChallenge ⟨cid, uid, cd, iss, exp, .pending, 3⟩ w4 t4 =
      (.failedOutcome, ⟨cid, uid, cd, iss, exp, .failed, 3⟩) := by
    simp [verifyChallenge, Nat.not_le.mpr ht4, MFA_MAX_ATTEMPTS]
  have h5 : ∀ (code : String) (t : ℕ),
      verifyChallenge ⟨cid, uid, cd, iss, exp, .failed, 3⟩ code t =
        (.failedOutcome, ⟨cid, uid, cd, iss, exp, .failed, 3⟩) := fun _ _ => rfl
  simp [h1, h2, h3, h4, h5]

/-- Witness for C6: the concrete challenge with code 123456 expiring at 300,
attacked with the wrong code 000000 at times 10, 20, 30 and 40. -/
theorem mfa_attempts_exceeded_witness :
    (verifyChallenge ⟨1, 7, "123456", 0, 300, .pending, 0⟩ "000000" 10).1 =
      .incorrectCode ∧
    (verifyChallenge (verifyChallenge ⟨1, 7, "123456", 0, 300, .pending, 0⟩
        "000000" 10).2 "000000" 20).1 = .incorrectCode ∧
    (verifyChallenge (verifyChallenge (verifyChallenge
        ⟨1, 7, "123456", 0, 300, .pending, 0⟩ "000000" 10).2 "000000" 20).2
        "000000" 30).1 = .incorrectCode ∧
    (verifyChallenge (verifyChallenge (verifyChallenge (verifyChallenge
        ⟨1, 7, "123456", 0, 300, .pending, 0⟩ "000000" 10).2 "000000" 20).2
        "000000" 30).2 "000000" 40).1 = .failedOutcome ∧
    (verifyChallenge (verifyChallenge (verifyChallenge (verifyChallenge
        ⟨1, 7, "123456", 0, 300, .pending, 0⟩ "000000" 10).2 "000000" 20).2
        "000000" 30).2 "000000" 40).2.state = .failed ∧
    (∀ (code : String) (t : ℕ),
      (verifyChallenge (verifyChallenge (verifyChallenge (verifyChallenge
          (verifyChallenge ⟨1, 7, "123456", 0, 300, .pending, 0⟩ "000000" 10).2
          "000000" 20).2 "000000" 30).2 "000000" 40).2 code t).1 = .failedOutcome ∧
      (verifyChallenge (verifyChallenge (verifyChallenge (verifyChallenge
          (verifyChallenge ⟨1, 7, "123456", 0, 300, .pending, 0⟩ "000000" 10).2
          "000000" 20).2 "000000" 30).2 "000000" 40).2 code t).2.state = .failed) :=
  mfa_attempts_exceeded ⟨1, 7, "123456", 0, 300, .pending, 0⟩
    "000000" "000000" "000000" "000000" 10 20 30 40 rfl rfl
    (by decide) (by decide) (by decide)
    (by norm_num) (by norm_num) (by norm_num) (by norm_num)

/-! ## Velocity Tracker

The spec requires the tracker to serialize access per user, so each record
call takes effect atomically; a concurrent execution is therefore an
arbitrary interleaving (arbitrary order) of whole record operations across
callers and users, which the universally quantified operation list below
ranges over. -/

/-- One (timestamp, amount) entry of a user's velocity window. -/
structure VEntry where
  timestamp : ℕ
  amount : ℚ
deriving DecidableEq

/-- Modelled from the spec: lazy eviction — an entry survives at time now
while now < timestamp + lookback, older entries are dropped. -/
def prune (now lookback : ℕ) (l : List VEntry) : List VEntry :=
  l.filter (fun e => now < e.timestamp + lookback)

/-- Modelled from the spec: record appends the entry to its user's window
and lazily evicts entries older than the lookback; the Flask backend
implementing the tracker is not part of the checked sources. -/
def record (st : ℕ → List VEntry) (uid : ℕ) (e : VEntry) (lookback : ℕ) :
    ℕ → List VEntry :=
  fun u => if u = uid then e :: prune e.timestamp lookback (st u) else st u

/-- Modelled from the spec: summary returns the count and total amount of
the user's entries within the lookback window. -/
def summary (st : ℕ → List VEntry) (uid : ℕ) (now lookback : ℕ) : ℕ × ℚ :=
  ((prune now lookback (st uid)).length,
   ((prune now lookback (st uid)).map VEntry.amount).sum)

/-- Runs an interleaved sequence of record operations, each tagged with the
calling user's id. -/
def runRecords (lookback : ℕ) : (ℕ → List VEntry) → List (ℕ × VEntry) → ℕ → List VEntry
  | st, [] => st
  | st, p :: ops => runRecords lookback (record st p.1 p.2 lookback) ops

theorem prune_eq_self (now lookback : ℕ) (l : List VEntry)
    (h : ∀ e ∈ l, now < e.timestamp + lookback) : prune now lookback l = l := by
  unfold prune
  rw [List.filter_eq_self]
  intro e he
  simpa using h e he

theorem runRecords_window (lookback uid now : ℕ) (ops : List (ℕ × VEntry)) :
    ∀ st : ℕ → List VEntry,
    (∀ p ∈ ops, p.1 = uid → now < p.2.timestamp + lookback ∧ p.2.timestamp ≤ now) →
    (∀ e ∈ st uid, now < e.timestamp + lookback ∧ e.timestamp ≤ now) →
    (runRecords lookback st ops uid).length =
        (st uid).length + (ops.filter (fun p => p.1 = uid)).length ∧
      (∀ e ∈ runRecords lookback st ops uid, e ∈ st uid ∨ (uid, e) ∈ ops) ∧
      (∀ e ∈ runRecords lookback st ops uid,
        now < e.timestamp + lookback ∧ e.timestamp ≤ now) := by
  induction ops with
  | nil => intro st _ hst; simpa [runRecords] using hst
  | cons p ops ih =>
      intro st hops hst
      obtain ⟨u, e⟩ := p
      by_cases hu : u = uid
      · subst hu
        have hhead := hops (u, e) (List.mem_cons_self _ _) rfl
        have hwin : record st u e lookback u = e :: st u := by
          unfold record
          rw [if_pos rfl, prune_eq_self]
          intro e' he'
          have h1 := (hst e' he').1
          have h2 : e.timestamp ≤ now := hhead.2
          omega
        have hst' : ∀ e' ∈ record st u e lookback u,
            now < e'.timestamp + lookback ∧ e'.timestamp ≤ now := by
          intro e' he'
          rw [hwin] at he'
          rcases List.mem_cons.mp he' with h | h
          · subst h; exact hhead
          · exact hst e' h
        have hops' : ∀ q ∈ ops, q.1 = u → now < q.2.timestamp + lookback ∧
            q.2.timestamp ≤ now :=
          fun q hq => hops q (List.mem_cons_of_mem _ hq)
        obtain ⟨hlen, hmem, hinv⟩ := ih (record st u e lookback) hops' hst'
        refine ⟨?_, ?_, ?_⟩
        · rw [runRecords, hlen, hwin]
          simp [List.length_cons]
          omega
        · intro e' he'
          rcases hmem e' he' with h | h
          · rw [hwin] at h
            rcases List.mem_cons.mp h with h' | h'
            · subst h'; exact Or.inr (List.mem_cons_self _ _)
            · exact Or.inl h'
          · exact Or.inr (List.mem_cons_of_mem _ h)
        · exact hinv
      · have hwin : record st u e lookback uid = st uid := by
          unfold record
          rw [if_neg (fun h => hu h.symm)]
        have hops' : ∀ q ∈ ops, q.1 = uid → now < q.2.timestamp + lookback ∧
            q.2.timestamp ≤ now :=
          fun q hq => hops q (List.mem_cons_of_mem _ hq)
        obtain ⟨hlen, hmem, hinv⟩ := ih (record st u e lookback) hops'
          (by rw [hwin]; exact hst)
        refine ⟨?_, ?_, ?_⟩
        · rw [runRecords, hlen, hwin]
          simp [List.filter_cons, hu]
        · intro e' he'
          rcases hmem e' he' with h | h
          · rw [hwin] at h
            exact Or.inl h
          · exact Or.inr (List.mem_cons_of_mem _ h)
        · exact hinv

/-- C7: for every interleaving of concurrent record calls (an arbitrary
order of atomic operations across users, as forced by the tracker's per-user
serialization), if a user starts with an empty window and that user's calls
carry in-window timestamps, a summary taken after all calls complete counts
exactly the number of that user's record calls — no update is lost — and
every entry the summary can observe is the complete payload of one of the
interleaved calls, never a partial write. -/
theorem velocity_no_lost_updates (ops : List (ℕ × VEntry))
    (st0 : ℕ → List VEntry) (uid now lookback : ℕ)
    (hinit : st0 uid = [])
    (hops : ∀ p ∈ ops, p.1 = uid → now < p.2.timestamp + lookback ∧ p.2.timestamp ≤ now) :
    (summary (runRecords lookback st0 ops) uid now lookback).1 =
      (ops.filter (fun p => p.1 = uid)).length ∧
    ∀ e ∈ runRecords lookback st0 ops uid, (uid, e) ∈ ops := by
  obtain ⟨hlen, hmem, hinv⟩ := runRecords_window lookback uid now ops st0 hops
    (by rw [hinit]; intro e he; cases he)
  constructor
  · unfold summary
    rw [prune_eq_self now lookback _ (fun e he => (hinv e he).1), hlen, hinit]
    simp
  · intro e he
    rcases hmem e he with h | h
    · rw [hinit] at h; cases h
    · exact h

/-- Witness for C7: three concurrent record calls for user 5 interleaved
with one call for user 8, all at timestamps within a 120-second lookback of
the summary time 100. -/
theorem velocity_no_lost_updates_witness :
    (summary (runRecords 120 (fun _ => [])
        [(5, ⟨90, 10⟩), (8, ⟨95, 7⟩), (5, ⟨95, 20⟩), (5, ⟨100, 30⟩)]) 5 100 120).1 =
      ([(5, (⟨90, 10⟩ : VEntry)), (8, ⟨95, 7⟩), (5, ⟨95, 20⟩),
        (5, ⟨100, 30⟩)].filter (fun p => p.1 = 5)).length ∧
    ∀ e ∈ runRecords 120 (fun _ => [])
        [(5, ⟨90, 10⟩), (8, ⟨95, 7⟩), (5, ⟨95, 20⟩), (5, ⟨100, 30⟩)] 5,
      ((5 : ℕ), e) ∈ [(5, (⟨90, 10⟩ : VEntry)), (8, ⟨95, 7⟩), (5, ⟨95, 20⟩),
        (5, ⟨100, 30⟩)] :=
  velocity_no_lost_updates
    [(5, ⟨90, 10⟩), (8, ⟨95, 7⟩), (5, ⟨95, 20⟩), (5, ⟨100, 30⟩)]
    (fun _ => []) 5 100 120 rfl (by decide)

/-! ## Login MFA form (frontend Login component) -/

/-- Embeds the Verify button's disabled condition from the Login MFA form:
disabled while loading or while the entered code's length differs from 6. -/
def mfaVerifyDisabled (loading : Bool) (mfaCode : String) : Bool :=
  loading || mfaCode.length != 6

/-- The MFA form submits a verification attempt only when its submit button
is enabled (a disabled default submit button blocks HTML form submission);
the result is the code sent to verifyMfa, or none when no call is made. -/
def mfaSubmitAttempt (loading : Bool) (mfaCode : String) : Option String :=
  if mfaVerifyDisabled loading mfaCode then none else some mfaCode

/-- Modelled from the spec: the server-generated challenge code has a fixed
length of six decimal digits; the Flask backend generating it is not part of
the checked sources. -/
def generateMfaCode (seed : ℕ) : String :=
  String.mk (((List.range 6).map (fun i => Char.ofNat (48 + seed / 10 ^ i % 10))).reverse)

/-- C8: the generated MFA code always has length six, and for every entered
string whose length differs from six the Verify action is disabled and no
verification call is submitted. -/
theorem mfa_code_length_gate (seed : ℕ) (loading : Bool) (s : String)
    (h : s.length ≠ 6) :
    (generateMfaCode seed).length = 6 ∧
    mfaVerifyDisabled loading s = true ∧
    mfaSubmitAttempt loading s = none := by
  have hb : (s.length != 6) = true := by simpa using h
  have hd : mfaVerifyDisabled loading s = true := by
    simp [mfaVerifyDisabled, hb]
  refine ⟨?_, hd, ?_⟩
  · simp [generateMfaCode, String.length]
  · simp [mfaSubmitAttempt, hd]

/-- Witness for C8 at seed 123456 and the five-character entry 12345. -/
theorem mfa_code_length_gate_witness :
    (generateMfaCode 123456).length = 6 ∧
    mfaVerifyDisabled false "12345" = true ∧
    mfaSubmitAttempt false "12345" = none :=
  mfa_code_length_gate 123456 false "12345" (by decide)

/-! ## AuthContext login (frontend auth context) -/

/-- Client-side user record held by the auth context. -/
structure UserData where
  id : ℕ
  username : String
deriving DecidableEq

/-- Authentication state touched by the AuthContext: the two localStorage
slots, the React token and user states, and the axios Authorization
header. -/
structure AuthState where
  storedToken : Option String
  storedUser : Option UserData
  token : Option String
  user : Option UserData
  axiosAuthHeader : Option String
deriving DecidableEq

/-- Response body of the login endpoint as consumed by login. -/
structure LoginResponse where
  access_token : String
  userData : UserData
  trust_score : ℚ
  risk_level : String
  requires_mfa : Bool
  mfa_challenge : Option String

/-- Result object login returns to its caller. -/
structure LoginResult where
  success : Bool
  requiresMfa : Bool
  mfaChallenge : Option String
  message : Option String
  trustScore : Option ℚ
  riskLevel : Option String
deriving DecidableEq

/-- Embeds login from the AuthContext: when the response carries the
requires_mfa flag it returns early with success false and requiresMfa true
and performs none of the storage, state or header writes; otherwise it
stores the token and user, sets both React states and the axios
Authorization header. -/
def login (st : AuthState) (resp : LoginResponse) : LoginResult × AuthState :=
  if resp.requires_mfa then
    ({ success := false
       requiresMfa := true
       mfaChallenge := resp.mfa_challenge
       message := some "Multi-factor authentication required"
       trustScore := none
       riskLevel := none }, st)
  else
    ({ success := true
       requiresMfa := false
       mfaChallenge := none
       message := none
       trustScore := some resp.trust_score
       riskLevel := some resp.risk_level },
     { storedToken := some resp.access_token
       storedUser := some resp.userData
       token := some resp.access_token
       user := some resp.userData
       axiosAuthHeader := some ("Bearer " ++ resp.access_token) })

/-- C9: when the login response carries the requires_mfa flag, login returns
success false with requiresMfa true and the challenge data, and the whole
authentication state — stored token, stored user record, React token and
user states, and the axios Authorization header — is left unchanged. -/
theorem login_requires_mfa_frame (st : AuthState) (resp : LoginResponse)
    (h : resp.requires_mfa = true) :
    (login st resp).1.success = false ∧
    (login st resp).1.requiresMfa = true ∧
    (login st resp).1.mfaChallenge = resp.mfa_challenge ∧
    (login st resp).2 = st ∧
    (login st resp).2.storedToken = st.storedToken ∧
    (login st resp).2.storedUser = st.storedUser ∧
    (login st resp).2.token = st.token ∧
    (login st resp).2.user = st.user ∧
    (login st resp).2.axiosAuthHeader = st.axiosAuthHeader := by
  simp [login, h]

/-- Witness for C9 at a concrete pre-login state and an MFA-demanding
response. -/
theorem login_requires_mfa_frame_witness :
    (login ⟨none, none, none, none, none⟩
        ⟨"tok", ⟨1, "alice"⟩, 55, "medium", true, some "ch-1"⟩).1.success = false ∧
    (login ⟨none, none, none, none, none⟩
        ⟨"tok", ⟨1, "alice"⟩, 55, "medium", true, some "ch-1"⟩).1.requiresMfa = true ∧
    (login ⟨none, none, none, none, none⟩
        ⟨"tok", ⟨1, "alice"⟩, 55, "medium", true, some "ch-1"⟩).1.mfaChallenge =
      some "ch-1" ∧
    (login ⟨none, none, none, none, none⟩
        ⟨"tok", ⟨1, "alice"⟩, 55, "medium", true, some "ch-1"⟩).2 =
      ⟨none, none, none, none, none⟩ := by
  have h := login_requires_mfa_frame ⟨none, none, none, none, none⟩
    ⟨"tok", ⟨1, "alice"⟩, 55, "medium", true, some "ch-1"⟩ rfl
  exact ⟨h.1, h.2.1, h.2.2.1, h.2.2.2.1⟩

end TrustAI
